import Mathlib

/-!
Shallow embedding of the login-attempt engine of CRONUS-Security/LoginEveryForm
(`src/modules/browser_automation.py`, `src/modules/password_loader.py`,
`src/main.py`).

The browser driver is abstracted as pure response functions: a DOM probe
`String → Option Bool` (`some true` = `query_selector` found an element,
`some false` = it found none, `none` = the call raised), and per-step
outcomes for page creation, navigation, fills, clicks and key presses.
Effects that the claims mention (fills, captcha-solve invocations,
screenshots, page close) are recorded in an event trace.
-/

namespace LoginEveryForm

/-- `listStarts pre l` : the character list `l` starts with `pre`. -/
def listStarts : List Char → List Char → Bool
  | [], _ => true
  | _ :: _, [] => false
  | a :: pre, b :: l => a == b && listStarts pre l

/-- `listInf nd l` : `nd` occurs as a contiguous run inside `l`. -/
def listInf (nd : List Char) : List Char → Bool
  | [] => nd.isEmpty
  | b :: l => listStarts nd (b :: l) || listInf nd l

/-- Python's `needle in hay` on strings (substring containment). -/
def substrB (needle hay : String) : Bool :=
  listInf needle.toList hay.toList

/-- Python's `s.startswith(pre)`, character-wise. -/
def startsWithB (pre s : String) : Bool :=
  listStarts pre.toList s.toList

/-- Python's `s.lower()`, character-wise (the tokens it is compared
against are ASCII). -/
def lowerStr (s : String) : String :=
  ⟨s.toList.map Char.toLower⟩

/-- `LoginStatus` (browser_automation.py lines 25-32). -/
inductive LoginStatus
  | SUCCESS
  | FAILED
  | ERROR
  | CAPTCHA_REQUIRED
  | TIMEOUT
  | ELEMENT_NOT_FOUND
  deriving DecidableEq, Repr, BEq

/-- `Credential` (password_loader.py lines 14-27). The Python constructor
strips whitespace on construction; the fields here hold the stored
(already stripped) values, which is all the claims need. -/
structure Credential where
  username : String
  password : String
  note : String := ""
  deriving DecidableEq, Repr

/-- The post-submit page as the classifier sees it: `url` is `page.url`,
`dom pat` is `page.query_selector(pat)` (`some true`: an element matched,
`some false`: no element, `none`: the call raised). -/
structure PageState where
  url : String
  dom : String → Option Bool

/-- The tokens of the URL-change heuristic (browser_automation.py line 493). -/
def urlErrTokens : List String := ["error", "login", "signin"]

/-- `any(err in current_url.lower() for err in ['error', 'login', 'signin'])`
(line 493). -/
def urlTokenHit (u : String) : Bool :=
  urlErrTokens.any (fun t => substrB t (lowerStr u))

/-- Error-indicator patterns (lines 510-516). -/
def error_patterns : List String :=
  [ "text=/错误|失败|error|failed|invalid|incorrect/i"
  , ".error"
  , ".alert-error"
  , ".alert-danger"
  , "#error" ]

/-- Success-indicator patterns (lines 525-530). -/
def success_patterns : List String :=
  [ "text=/欢迎|welcome|dashboard|home|profile/i"
  , ".user-menu"
  , ".profile"
  , "#dashboard" ]

/-- The residual username-field probe (line 539). -/
def username_field_probe : String := "input[type='text'], input[type='email']"

/-- One classifier loop over patterns (lines 518-522 and 532-536): the first
`query_selector` hit decides; a raising probe propagates (`Except.error`),
since these loops have no inner try/except. -/
def firstHit (dom : String → Option Bool) : List String → Except Unit Bool
  | [] => .ok false
  | p :: ps =>
    match dom p with
    | none => .error ()
    | some true => .ok true
    | some false => firstHit dom ps

/-- Layer 2 of the classifier (lines 497-507): the explicit success
indicator. `.ok true` = decided SUCCESS, `.ok false` = indecisive,
`.error` = the DOM probe raised. -/
def indicatorStep (dom : String → Option Bool) (current : String) :
    Option String → Except Unit Bool
  | none => .ok false
  | some s =>
    if startsWithB "http" s then .ok (substrB s current)
    else
      match dom s with
      | none => .error ()
      | some b => .ok b

/-- `_verify_login_success` (lines 472-549): the layered success
classifier. Any raise inside the body is caught by the outer handler and
yields `false` (lines 547-549). Layer 1 is the URL-change heuristic
(line 493); the final fallback (line 545) is the plain URL inequality. -/
def verify_login_success (pg : PageState) (original_url : String)
    (success_indicator : Option String) : Bool :=
  let current := pg.url
  if current != original_url && !urlTokenHit current then true
  else
    match indicatorStep pg.dom current success_indicator with
    | .error _ => false
    | .ok true => true
    | .ok false =>
      match firstHit pg.dom error_patterns with
      | .error _ => false
      | .ok true => false
      | .ok false =>
        match firstHit pg.dom success_patterns with
        | .error _ => false
        | .ok true => true
        | .ok false =>
          match pg.dom username_field_probe with
          | none => false
          | some true => false
          | some false => current != original_url

/-- Username-field selector patterns (lines 167-182). -/
def username_patterns : List String :=
  [ "input[type='text'][name*='user']"
  , "input[type='text'][name*='login']"
  , "input[type='text'][name*='account']"
  , "input[type='email']"
  , "input[type='text'][id*='user']"
  , "input[type='text'][id*='login']"
  , "input[type='text'][id*='account']"
  , "input[name='username']"
  , "input[name='email']"
  , "input[placeholder*='用户']"
  , "input[placeholder*='账号']"
  , "input[placeholder*='邮箱']"
  , "input[placeholder*='username']"
  , "input[placeholder*='email']" ]

/-- Password-field selector patterns (lines 195-201). -/
def password_patterns : List String :=
  [ "input[type='password']"
  , "input[name*='pass']"
  , "input[id*='pass']"
  , "input[placeholder*='密码']"
  , "input[placeholder*='password']" ]

/-- Captcha-field selector patterns (lines 214-224). -/
def captcha_patterns : List String :=
  [ "input[name*='captcha']"
  , "input[name*='code']"
  , "input[name*='verify']"
  , "input[id*='captcha']"
  , "input[id*='code']"
  , "input[id*='verify']"
  , "input[placeholder*='验证码']"
  , "input[placeholder*='captcha']"
  , "input[placeholder*='code']" ]

/-- Submit-button selector patterns (lines 237-249). -/
def submit_patterns : List String :=
  [ "button[type='submit']"
  , "input[type='submit']"
  , "button:has-text('登录')"
  , "button:has-text('登錄')"
  , "button:has-text('Login')"
  , "button:has-text('Sign in')"
  , "button:has-text('Sign In')"
  , "button[name*='login']"
  , "button[id*='login']"
  , "input[value*='登录']"
  , "input[value*='Login']" ]

/-- The four form-field roles that `detect_login_form` resolves. -/
inductive Role
  | username
  | password
  | captcha
  | submit
  deriving DecidableEq, Repr

/-- The fixed, ordered pattern list of a role. -/
def rolePatterns : Role → List String
  | .username => username_patterns
  | .password => password_patterns
  | .captcha => captcha_patterns
  | .submit => submit_patterns

/-- The selector map returned by `detect_login_form` (lines 158-163). -/
structure Selectors where
  username : Option String
  password : Option String
  captcha : Option String
  submit : Option String
  deriving DecidableEq, Repr

/-- Role-indexed access to a selector map. -/
def Selectors.role : Selectors → Role → Option String
  | s, .username => s.username
  | s, .password => s.password
  | s, .captcha => s.captcha
  | s, .submit => s.submit

/-- One detection loop (e.g. lines 184-192): the first pattern whose
`query_selector` returns an element wins; a raising probe is swallowed by
the inner `except: continue` and the loop moves on. -/
def findPattern (probe : String → Option Bool) : List String → Option String
  | [] => none
  | p :: ps => if probe p == some true then some p else findPattern probe ps

/-- `detect_login_form` (lines 146-265): each role is resolved by its own
loop over its own fixed pattern list; nothing outside the four per-pattern
probes can raise, so the outer handler is dead and the function always
returns a (possibly all-absent) selector map. -/
def detect_login_form (probe : String → Option Bool) : Selectors :=
  { username := findPattern probe username_patterns
  , password := findPattern probe password_patterns
  , captcha := findPattern probe captcha_patterns
  , submit := findPattern probe submit_patterns }

/-- A raised Playwright exception, split as the two handler classes of
`attempt_login` distinguish it (lines 454-466): `PlaywrightTimeout`
versus any other `Exception`. -/
inductive Exc
  | timeout (msg : String)
  | error (msg : String)
  deriving DecidableEq, Repr

/-- The status an escaping exception's handler assigns (lines 454-466). -/
def Exc.toStatus : Exc → LoginStatus
  | .timeout _ => .TIMEOUT
  | .error _ => .ERROR

/-- The result message an escaping exception's handler formats
(lines 455, 462). -/
def Exc.toMessage : Exc → String
  | .timeout m => "Timeout: " ++ m
  | .error m => "Error: " ++ m

/-- The screenshot tag an escaping exception's handler uses
(lines 458, 465). -/
def Exc.tag : Exc → String
  | .timeout _ => "timeout"
  | .error _ => "error"

/-- One observable side effect of an attempt: a `page.fill`, a
captcha-solve invocation, a `page.click`, a `page.press`, a screenshot
(by tag), or the final `page.close`. -/
inductive Ev
  | fillEv (sel text : String)
  | solveEv
  | clickEv (sel : String)
  | pressEv (sel : String)
  | shot (tag : String)
  | close
  deriving DecidableEq, Repr

/-- One attempt's environment: the outcome the browser or captcha solver
returns at each step. For a step outcome, `none` means the call
succeeded and `some e` that it raised `e`. -/
structure Driver where
  /-- `context.new_page()` (line 374). -/
  newPage : Option Exc := none
  /-- `page.goto` (line 379). -/
  goto : Option Exc := none
  /-- `page.wait_for_load_state("networkidle", ...)` (line 380). -/
  waitIdle : Option Exc := none
  /-- `page.query_selector` during form detection (lines 186, 205, ...). -/
  probe : String → Option Bool
  /-- `page.fill` on a selector (lines 404, 409, 418). -/
  fill : String → Option Exc
  /-- `solve_captcha(page)` (line 415); it catches internally and never
  raises. -/
  solve : Option String
  /-- `page.click` (line 429). -/
  click : String → Option Exc
  /-- `page.press(selector, "Enter")` (line 432). -/
  press : String → Option Exc
  /-- The post-submit page the classifier inspects (lines 441, 472-549). -/
  page : PageState

/-- Python truthiness of the captcha-solve result: `if captcha_text:`
(line 417) is false both for None and for the empty string. -/
def truthy : Option String → Option String
  | none => none
  | some s => if s == "" then none else some s

/-- `LoginResult` (lines 42-58), minus the wall-clock timestamp, which is
outside the embedding. -/
structure LoginResult where
  status : LoginStatus
  credential : Credential
  url : String
  message : String := ""
  screenshot_path : Option String := none
  deriving DecidableEq, Repr

/-- The per-attempt arguments of `attempt_login` (lines 342-351). -/
structure Args where
  url : String
  credential : Credential
  username_selector : Option String := none
  password_selector : Option String := none
  captcha_selector : Option String := none
  submit_selector : Option String := none
  success_indicator : Option String := none

/-- The path `_save_screenshot` returns (lines 551-566), with the Unix
timestamp component elided (it is wall-clock state outside the
embedding) and username sanitization folded into the stored name. -/
def shotPath (username tag : String) : String :=
  username ++ "_" ++ tag ++ ".png"

/-- An escaping exception's handler (lines 454-466): best-effort
screenshot tagged by the exception class, then the corresponding
status, message and screenshot path.  Used only when the page exists. -/
def excExit (a : Args) (e : Exc) (evs : List Ev) :
    LoginStatus × String × Option String × List Ev :=
  (e.toStatus, e.toMessage, some (shotPath a.credential.username e.tag),
    evs ++ [Ev.shot e.tag])

/-- Submission, settle wait, screenshot and classification
(lines 426-452): selector click when a submit selector resolved, else
Enter in the password field; then the after-submit screenshot and the
success classifier. -/
def submitPhase (d : Driver) (a : Args) (passwordSel : String)
    (submitSel : Option String) (evs : List Ev) :
    LoginStatus × String × Option String × List Ev :=
  let step :=
    match submitSel with
    | some s => (d.click s, evs ++ [Ev.clickEv s])
    | none => (d.press passwordSel, evs ++ [Ev.pressEv passwordSel])
  match step.1 with
  | some e => excExit a e step.2
  | none =>
    let path := shotPath a.credential.username "after_submit"
    let evs2 := step.2 ++ [Ev.shot "after_submit"]
    if verify_login_success d.page a.url a.success_indicator then
      (.SUCCESS, "Login successful", some path, evs2)
    else
      (.FAILED, "Login failed - incorrect credentials or other error",
        some path, evs2)

/-- The selector map `attempt_login` works with after optional
auto-detection (lines 382-394): detection runs only when the explicit
username or password selector is missing, and each missing selector is
then filled from the detected map. -/
def mergedSelectors (d : Driver) (a : Args) : Selectors :=
  if a.username_selector.isNone || a.password_selector.isNone then
    let det := detect_login_form d.probe
    { username := a.username_selector <|> det.username
    , password := a.password_selector <|> det.password
    , captcha := a.captcha_selector <|> det.captcha
    , submit := a.submit_selector <|> det.submit }
  else
    { username := a.username_selector
    , password := a.password_selector
    , captcha := a.captcha_selector
    , submit := a.submit_selector }

/-- The body of `attempt_login` once the page exists (lines 377-452),
with the two exception handlers applied (lines 454-466); the `finally`
close is appended by `attempt_login` itself. Returns status, message,
screenshot path and the event trace. -/
def attemptCore (d : Driver) (a : Args) :
    LoginStatus × String × Option String × List Ev :=
  match d.goto with
  | some e => excExit a e []
  | none =>
  match d.waitIdle with
  | some e => excExit a e []
  | none =>
  let merged := mergedSelectors d a
  match merged.username, merged.password with
  | none, _ =>
    (.ELEMENT_NOT_FOUND, "Username or password field not found", none, [])
  | some _, none =>
    (.ELEMENT_NOT_FOUND, "Username or password field not found", none, [])
  | some u, some p =>
    let evs1 := [Ev.fillEv u a.credential.username]
    match d.fill u with
    | some e => excExit a e evs1
    | none =>
    let evs2 := evs1 ++ [Ev.fillEv p a.credential.password]
    match d.fill p with
    | some e => excExit a e evs2
    | none =>
    match merged.captcha with
    | some c =>
      let evs3 := evs2 ++ [Ev.solveEv]
      match truthy d.solve with
      | some txt =>
        let evs4 := evs3 ++ [Ev.fillEv c txt]
        match d.fill c with
        | some e => excExit a e evs4
        | none => submitPhase d a p merged.submit evs4
      | none =>
        (.CAPTCHA_REQUIRED, "Failed to solve captcha",
          some (shotPath a.credential.username "captcha_failed"),
          evs3 ++ [Ev.shot "captcha_failed"])
    | none => submitPhase d a p merged.submit evs2

/-- `attempt_login` (lines 342-470), with its `finally: page.close()`
(lines 468-470). When `context.new_page()` itself raises, `page` is
still None, so the handler takes no screenshot and nothing is closed
(lines 457-458, 464-465, 469). -/
def attempt_login (d : Driver) (a : Args) : LoginResult × List Ev :=
  match d.newPage with
  | some e => (⟨e.toStatus, a.credential, a.url, e.toMessage, none⟩, [])
  | none =>
    let core := attemptCore d a
    (⟨core.1, a.credential, a.url, core.2.1, core.2.2.1⟩,
      core.2.2.2 ++ [Ev.close])

/-- A batch-level event: the start of the `idx`-th attempt (1-based, as
in `enumerate(credentials, 1)`), or one inter-attempt `asyncio.sleep`. -/
inductive BEv
  | attempt (idx : Nat)
  | sleep
  deriving DecidableEq, Repr

/-- The sequential attempt loop shared by `batch_login`
(browser_automation.py lines 600-618) and `LoginWorker._async_run`
(main.py lines 86-107). `att idx c` abstracts the `LoginResult` of
attempting credential `c` at 1-based position `idx`; `rb idx` is the
value the shared `self._is_running` flag shows at the boundary check of
iteration `idx` (main.py line 87), and `rd idx` its value at that
iteration's delay check (main.py line 106) — two separate reads of a
flag another thread may clear in between. `batch_login` has no flag: it
is this loop with both reads constantly true. -/
def loopFrom (att : Nat → Credential → LoginResult) (rb rd : Nat → Bool)
    (total : Nat) : Nat → List Credential → List LoginResult × List BEv
  | _, [] => ([], [])
  | idx, c :: rest =>
    if rb idx then
      let r := att idx c
      let tail := loopFrom att rb rd total (idx + 1) rest
      let slp := if decide (idx < total) && rd idx then [BEv.sleep] else []
      (r :: tail.1, BEv.attempt idx :: (slp ++ tail.2))
    else ([], [])

/-- `LoginWorker._async_run`'s attempt loop (main.py lines 86-107). -/
def workerRun (att : Nat → Credential → LoginResult) (rb rd : Nat → Bool)
    (creds : List Credential) : List LoginResult × List BEv :=
  loopFrom att rb rd creds.length 1 creds

/-- The end-of-run summary `batch_login` hands to `logger.summary`
(lines 621-625); `total` is `len(credentials)`. -/
structure RunSummary where
  total : Nat
  success : Nat
  failed : Nat
  errorLike : Nat
  deriving DecidableEq, Repr

/-- The status list of the error-like bucket (line 623). -/
def errorLikeStatuses : List LoginStatus := [.ERROR, .TIMEOUT, .ELEMENT_NOT_FOUND]

/-- The three bucket counts of lines 621-623. -/
def runSummary (total : Nat) (rs : List LoginResult) : RunSummary :=
  { total := total
  , success := (rs.filter (fun r => r.status == .SUCCESS)).length
  , failed := (rs.filter (fun r => r.status == .FAILED)).length
  , errorLike := (rs.filter (fun r => errorLikeStatuses.contains r.status)).length }

/-- `batch_login` (lines 568-627): the sequential loop with no
cancellation flag, its result list and event trace, and the summary. -/
def batch_login (att : Nat → Credential → LoginResult)
    (creds : List Credential) : List LoginResult × RunSummary × List BEv :=
  let out := loopFrom att (fun _ => true) (fun _ => true) creds.length 1 creds
  (out.1, runSummary creds.length out.1, out.2)

/-- A driver whose every browser step succeeds, whose probes all miss,
and whose captcha solve returns none: concrete runs of `attempt_login`. -/
def driverBlank : Driver :=
  { probe := fun _ => some false
  , fill := fun _ => none
  , solve := none
  , click := fun _ => none
  , press := fun _ => none
  , page := ⟨"http://a/login", fun _ => some false⟩ }

/-- Arguments with no explicit selectors (full auto-detection). -/
def argsAuto : Args :=
  { url := "http://a/login", credential := ⟨"bob", "pw", ""⟩ }

/-- Arguments with explicit username, password and captcha selectors. -/
def argsExplicit : Args :=
  { url := "http://a/login", credential := ⟨"bob", "pw", ""⟩
  , username_selector := some "#u"
  , password_selector := some "#p"
  , captcha_selector := some "#c" }

/-- A constant attempt outcome for concrete batch runs. -/
def attConst : Nat → Credential → LoginResult :=
  fun _ c => ⟨.SUCCESS, c, "http://a/login", "", none⟩

/-- A concrete credential for batch runs. -/
def credA : Credential := ⟨"alice", "pw1", ""⟩

/-- A second concrete credential for batch runs. -/
def credB : Credential := ⟨"bob", "pw2", ""⟩

/-- A concrete CAPTCHA_REQUIRED result for summary runs. -/
def resCaptcha : LoginResult := ⟨.CAPTCHA_REQUIRED, credA, "http://a/login", "", none⟩

/-- A result list holding one CAPTCHA_REQUIRED result. -/
def rsCaptcha : List LoginResult := [resCaptcha]

theorem findPattern_first (probe : String → Option Bool) :
    ∀ (l : List String) (i : Nat) (hi : i < l.length),
      probe (l.get ⟨i, hi⟩) = some true →
      (∀ j (hj : j < i), probe (l.get ⟨j, Nat.lt_trans hj hi⟩) ≠ some true) →
      findPattern probe l = some (l.get ⟨i, hi⟩) := by
  intro l
  induction l with
  | nil => intro i hi; exact absurd hi (by simp)
  | cons a t ih =>
    intro i hi hhit hfirst
    cases i with
    | zero =>
      have ha : (probe a == some true) = true := beq_iff_eq.mpr hhit
      show (if probe a == some true then some a else findPattern probe t) = _
      rw [ha, if_pos rfl]
      rfl
    | succ n =>
      have ha : (probe a == some true) = false :=
        beq_eq_false_iff_ne.mpr (hfirst 0 (Nat.succ_pos n))
      show (if probe a == some true then some a else findPattern probe t) = _
      rw [ha, if_neg Bool.false_ne_true]
      exact ih n (Nat.lt_of_succ_lt_succ hi) hhit
        (fun j hj => hfirst (j + 1) (Nat.succ_lt_succ hj))

theorem findPattern_congr (probe probe2 : String → Option Bool) :
    ∀ l : List String, (∀ p ∈ l, probe2 p = probe p) →
      findPattern probe2 l = findPattern probe l := by
  intro l
  induction l with
  | nil => intro _; rfl
  | cons a t ih =>
    intro h
    show (if probe2 a == some true then some a else findPattern probe2 t) =
      (if probe a == some true then some a else findPattern probe t)
    rw [h a (List.mem_cons_self a t),
      ih (fun p hp => h p (List.mem_cons_of_mem a hp))]

theorem findPattern_none (probe : String → Option Bool) :
    ∀ l : List String, (∀ p ∈ l, probe p ≠ some true) →
      findPattern probe l = none := by
  intro l
  induction l with
  | nil => intro _; rfl
  | cons a t ih =>
    intro h
    show (if probe a == some true then some a else findPattern probe t) = none
    rw [beq_eq_false_iff_ne.mpr (h a (List.mem_cons_self a t)),
      if_neg Bool.false_ne_true]
    exact ih (fun p hp => h p (List.mem_cons_of_mem a hp))

theorem detect_role_eq (probe : String → Option Bool) (r : Role) :
    (detect_login_form probe).role r = findPattern probe (rolePatterns r) := by
  cases r <;> rfl

/-- C1: whenever the current URL differs from the original and its
lower-cased form contains none of the substrings error, login, signin,
the classifier returns true at layer 1 — before and regardless of any
supplied success indicator and regardless of any DOM behavior of the
page (including raising probes), which it never consults. -/
theorem C1_url_change_wins (dom : String → Option Bool) (current orig : String)
    (ind : Option String) (hne : current ≠ orig)
    (htok : ∀ t ∈ urlErrTokens, substrB t (lowerStr current) = false) :
    verify_login_success ⟨current, dom⟩ orig ind = true := by
  have h1 : urlTokenHit current = false := by
    unfold urlTokenHit
    rw [List.any_eq_false]
    intro t ht
    simp [htok t ht]
  have h2 : (current != orig) = true := bne_iff_ne.mpr hne
  simp [verify_login_success, h1, h2]

/-- C1 witness: a changed, token-free URL classifies true even with a
raising DOM and an unmatched indicator supplied. -/
theorem C1_url_change_wins_witness :
    verify_login_success ⟨"http://a/home", fun _ => none⟩ "http://a/login"
      (some ".x") = true :=
  C1_url_change_wins (fun _ => none) "http://a/home" "http://a/login"
    (some ".x") (by decide) (by decide)

/-- C2 counterexample: a page whose URL changed to one containing the
token "error", with every DOM probe finding nothing. Layers 1 to 4 are
indecisive and no username field is present, so the code's final
fallback (line 545) returns the plain URL inequality — true — while the
claim's step-1 test (inequality AND no error/login/signin token) is
false at this very input. -/
theorem C2_residual_counterexample :
    verify_login_success ⟨"http://a/errorpage", fun _ => some false⟩
      "http://a/" none = true ∧
    ¬(("http://a/errorpage" : String) ≠ "http://a/" ∧
      urlTokenHit "http://a/errorpage" = false) :=
  ⟨by decide, by decide⟩

/-- C2 (amended): when layers 1 to 4 are indecisive, the classifier
returns false if a generic username-shaped input field is still present;
otherwise it falls back to the PLAIN URL-change test
`currentUrl != originalUrl` (line 545) — without step 1's
error/login/signin token filter. -/
theorem C2_residual_fallback (pg : PageState) (orig : String)
    (ind : Option String)
    (hlayer1 : pg.url = orig ∨ urlTokenHit pg.url = true)
    (hind : indicatorStep pg.dom pg.url ind = .ok false)
    (herr : firstHit pg.dom error_patterns = .ok false)
    (hsuc : firstHit pg.dom success_patterns = .ok false) :
    (pg.dom username_field_probe = some true →
      verify_login_success pg orig ind = false) ∧
    (pg.dom username_field_probe = some false →
      verify_login_success pg orig ind = (pg.url != orig)) := by
  have hcond : (pg.url != orig && !urlTokenHit pg.url) = false := by
    rcases hlayer1 with h | h
    · simp [h]
    · simp [h]
  constructor <;> intro hu <;>
    simp [verify_login_success, hcond, hind, herr, hsuc, hu]

/-- C2 amended-claim witness: the counterexample page goes through the
residual fallback and returns the plain URL inequality. -/
theorem C2_residual_fallback_witness :
    verify_login_success ⟨"http://a/errorpage", fun _ => some false⟩
      "http://a/" none = (("http://a/errorpage" : String) != "http://a/") :=
  (C2_residual_fallback ⟨"http://a/errorpage", fun _ => some false⟩
    "http://a/" none (Or.inr (by decide)) rfl rfl rfl).2 rfl

/-- C7: with the URL unchanged (layer 1 indecisive), a supplied success
indicator that matches — as a substring of the current URL when it
starts with "http", else as a DOM-presence probe — makes the classifier
return true, so URL-unchanged alone does not force a FAILED verdict. -/
theorem C7_indicator_layer (pg : PageState) (orig s : String)
    (hurl : pg.url = orig)
    (hmatch : (startsWithB "http" s = true ∧ substrB s pg.url = true) ∨
      (startsWithB "http" s = false ∧ pg.dom s = some true)) :
    verify_login_success pg orig (some s) = true := by
  subst hurl
  rcases hmatch with ⟨h1, h2⟩ | ⟨h1, h2⟩ <;>
    simp [verify_login_success, indicatorStep, h1, h2]

/-- C7 witness: same URL, DOM-probe indicator present, classifies true. -/
theorem C7_indicator_layer_witness :
    verify_login_success ⟨"http://a/login", fun p => some (p == ".welcome")⟩
      "http://a/login" (some ".welcome") = true :=
  C7_indicator_layer ⟨"http://a/login", fun p => some (p == ".welcome")⟩
    "http://a/login" ".welcome" rfl (Or.inr ⟨by decide, by decide⟩)

/-- C4: for every field role, `detect_login_form` returns the first
pattern in that role's fixed ordered list whose probe finds an element —
when two patterns match, the earlier-indexed one wins — and the role's
result depends only on the probes of that role's own pattern list, so
on no other role's result. -/
theorem C4_first_pattern_wins (r : Role) (probe probe2 : String → Option Bool)
    (i : Nat) (hi : i < (rolePatterns r).length)
    (hhit : probe ((rolePatterns r).get ⟨i, hi⟩) = some true)
    (hfirst : ∀ j (hj : j < i),
      probe ((rolePatterns r).get ⟨j, Nat.lt_trans hj hi⟩) ≠ some true)
    (hagree : ∀ p ∈ rolePatterns r, probe2 p = probe p) :
    (detect_login_form probe).role r = some ((rolePatterns r).get ⟨i, hi⟩) ∧
    (detect_login_form probe2).role r = (detect_login_form probe).role r := by
  constructor
  · rw [detect_role_eq]
    exact findPattern_first probe (rolePatterns r) i hi hhit hfirst
  · rw [detect_role_eq, detect_role_eq]
    exact findPattern_congr probe probe2 (rolePatterns r) hagree

/-- C4 witness: a probe matching every pattern resolves the username
role to its first-listed pattern, and a probe agreeing on the username
pattern list (but raising elsewhere) resolves it identically. -/
theorem C4_first_pattern_wins_witness :
    (detect_login_form (fun _ => some true)).role .username =
      some "input[type='text'][name*='user']" ∧
    (detect_login_form
        (fun p => if p ∈ username_patterns then some true else none)).role
        .username =
      (detect_login_form (fun _ => some true)).role .username :=
  C4_first_pattern_wins .username (fun _ => some true)
    (fun p => if p ∈ username_patterns then some true else none)
    0 (by decide) rfl (fun j hj => absurd hj (Nat.not_lt_zero j)) (by decide)

/-- C8: `detect_login_form` is a total function of the probe behavior —
a raising probe (`none`) on any single pattern is skipped exactly like a
miss, and the loop continues with the next pattern — and whenever no
pattern of a role probes an element (misses and raises alike), that
role's entry is `none`; in particular the all-raising probe yields the
all-absent selector map, never an exception. -/
theorem C8_detect_never_throws (probe : String → Option Bool) (r : Role)
    (h : ∀ p ∈ rolePatterns r, probe p ≠ some true) :
    (detect_login_form probe).role r = none := by
  rw [detect_role_eq]
  exact findPattern_none probe (rolePatterns r) h

/-- C8 witness: the probe that raises on every pattern still returns an
absent username entry. -/
theorem C8_detect_never_throws_witness :
    (detect_login_form (fun _ => none)).role .username = none :=
  C8_detect_never_throws (fun _ => none) .username
    (fun _ _ hcontra => Option.noConfusion hcontra)

/-- C5: when navigation succeeded but, after the optional auto-detection
merge, the username or the password selector is still absent (neither
explicitly supplied nor detected), `attempt_login` returns
ELEMENT_NOT_FOUND and its trace holds no fill event on any field. -/
theorem C5_missing_selector (d : Driver) (a : Args)
    (hnp : d.newPage = none) (hg : d.goto = none) (hw : d.waitIdle = none)
    (hmiss : (mergedSelectors d a).username = none ∨
      (mergedSelectors d a).password = none) :
    (attempt_login d a).1.status = .ELEMENT_NOT_FOUND ∧
    ∀ s t, Ev.fillEv s t ∉ (attempt_login d a).2 := by
  have key : attempt_login d a =
      (⟨.ELEMENT_NOT_FOUND, a.credential, a.url,
        "Username or password field not found", none⟩, [Ev.close]) := by
    rcases hmiss with h | h
    · simp [attempt_login, hnp, attemptCore, hg, hw, h]
    · cases hu : (mergedSelectors d a).username with
      | none => simp [attempt_login, hnp, attemptCore, hg, hw, hu]
      | some u => simp [attempt_login, hnp, attemptCore, hg, hw, hu, h]
  rw [key]
  exact ⟨rfl, by intro s t hmem; simp at hmem⟩

/-- C5 witness: auto-detection on an empty page finds neither field; the
attempt yields ELEMENT_NOT_FOUND and a particular fill is absent. -/
theorem C5_missing_selector_witness :
    (attempt_login driverBlank argsAuto).1.status = .ELEMENT_NOT_FOUND ∧
    Ev.fillEv "#u" "bob" ∉ (attempt_login driverBlank argsAuto).2 :=
  ⟨(C5_missing_selector driverBlank argsAuto rfl rfl rfl (Or.inl rfl)).1,
   (C5_missing_selector driverBlank argsAuto rfl rfl rfl
      (Or.inl rfl)).2 "#u" "bob"⟩

/-- C6: with username and password resolved and filled, a captcha
selector present (explicit or detected) and the captcha solve returning
none or the empty string (both Python-falsy), the attempt returns
CAPTCHA_REQUIRED and its trace is exactly the two credential fills, ONE
solver invocation (no retry), the screenshot tagged "captcha_failed",
and the close — in particular no fill of the captcha field occurs. -/
theorem C6_captcha_unsolved (d : Driver) (a : Args) (u p c : String)
    (hnp : d.newPage = none) (hg : d.goto = none) (hw : d.waitIdle = none)
    (hu : (mergedSelectors d a).username = some u)
    (hp : (mergedSelectors d a).password = some p)
    (hc : (mergedSelectors d a).captcha = some c)
    (hfu : d.fill u = none) (hfp : d.fill p = none)
    (hsolve : truthy d.solve = none) :
    (attempt_login d a).1.status = .CAPTCHA_REQUIRED ∧
    (attempt_login d a).2 =
      [Ev.fillEv u a.credential.username, Ev.fillEv p a.credential.password,
       Ev.solveEv, Ev.shot "captcha_failed", Ev.close] := by
  have key : attempt_login d a =
      (⟨.CAPTCHA_REQUIRED, a.credential, a.url, "Failed to solve captcha",
        some (shotPath a.credential.username "captcha_failed")⟩,
       [Ev.fillEv u a.credential.username, Ev.fillEv p a.credential.password,
        Ev.solveEv, Ev.shot "captcha_failed", Ev.close]) := by
    simp [attempt_login, hnp, attemptCore, hg, hw, hu, hp, hc, hfu, hfp,
      hsolve]
  rw [key]
  exact ⟨rfl, rfl⟩

/-- C6 witness: explicit selectors, solver returns none; the attempt is
CAPTCHA_REQUIRED with the exact expected trace. -/
theorem C6_captcha_unsolved_witness :
    (attempt_login driverBlank argsExplicit).1.status = .CAPTCHA_REQUIRED ∧
    (attempt_login driverBlank argsExplicit).2 =
      [Ev.fillEv "#u" "bob", Ev.fillEv "#p" "pw", Ev.solveEv,
       Ev.shot "captcha_failed", Ev.close] :=
  C6_captcha_unsolved driverBlank argsExplicit "#u" "#p" "#c"
    rfl rfl rfl rfl rfl rfl rfl rfl rfl

/-- C9: whenever the page was opened (`context.new_page()` succeeded),
the event trace of `attempt_login` ends with the page-close event —
on every exit path, since the driver outcomes range over success,
timeout and error at every step, covering SUCCESS, FAILED,
ELEMENT_NOT_FOUND, CAPTCHA_REQUIRED, TIMEOUT and ERROR exits. -/
theorem C9_page_always_closed (d : Driver) (a : Args)
    (hnp : d.newPage = none) :
    (attempt_login d a).2.getLast? = some Ev.close := by
  simp [attempt_login, hnp]

/-- C9 witness: a concrete successful navigation closes its page last. -/
theorem C9_page_always_closed_witness :
    (attempt_login driverBlank argsExplicit).2.getLast? = some Ev.close :=
  C9_page_always_closed driverBlank argsExplicit rfl

theorem getLast?_append_right {α : Type} (l1 l2 : List α) (h : l2 ≠ []) :
    (l1 ++ l2).getLast? = l2.getLast? := by
  induction l1 with
  | nil => rfl
  | cons a t ih =>
    have hne : t ++ l2 ≠ [] := by
      intro hc
      exact h (List.append_eq_nil.mp hc).2
    obtain ⟨b, l, hb⟩ := List.exists_cons_of_ne_nil hne
    rw [List.cons_append, hb, List.getLast?_cons_cons, ← hb, ih]

theorem loopFrom_initial (att : Nat → Credential → LoginResult)
    (rb rd : Nat → Bool) (total : Nat) :
    ∀ (creds : List Credential) (idx : Nat),
      ∃ k, k ≤ creds.length ∧
        (loopFrom att rb rd total idx creds).1 =
          ((creds.take k).enumFrom idx).map (fun pr => att pr.1 pr.2) := by
  intro creds
  induction creds with
  | nil => intro idx; exact ⟨0, Nat.le_refl 0, rfl⟩
  | cons c rest ih =>
    intro idx
    cases hrb : rb idx with
    | false =>
      refine ⟨0, Nat.zero_le _, ?_⟩
      simp [loopFrom, hrb]
    | true =>
      obtain ⟨k, hk, heq⟩ := ih (idx + 1)
      refine ⟨k + 1, Nat.succ_le_succ hk, ?_⟩
      simp [loopFrom, hrb, List.take, List.enumFrom, heq]

theorem loopFrom_length_le (att : Nat → Credential → LoginResult)
    (rb rd : Nat → Bool) (total : Nat) :
    ∀ (creds : List Credential) (idx : Nat),
      (loopFrom att rb rd total idx creds).1.length ≤ creds.length := by
  intro creds
  induction creds with
  | nil => intro idx; simp [loopFrom]
  | cons c rest ih =>
    intro idx
    cases hrb : rb idx with
    | false => simp [loopFrom, hrb]
    | true =>
      have hrec := ih (idx + 1)
      simp only [loopFrom, hrb, if_true, List.length_cons]
      omega

theorem loopFrom_length_eq (att : Nat → Credential → LoginResult)
    (rb rd : Nat → Bool) (total : Nat) (hrb : ∀ k, rb k = true) :
    ∀ (creds : List Credential) (idx : Nat),
      (loopFrom att rb rd total idx creds).1.length = creds.length := by
  intro creds
  induction creds with
  | nil => intro idx; simp [loopFrom]
  | cons c rest ih =>
    intro idx
    simp [loopFrom, hrb idx, ih (idx + 1)]

theorem loopFrom_attempt_mem (att : Nat → Credential → LoginResult)
    (rb rd : Nat → Bool) (total : Nat) :
    ∀ (creds : List Credential) (idx i : Nat),
      BEv.attempt i ∈ (loopFrom att rb rd total idx creds).2 →
      idx ≤ i ∧ ∀ k, idx ≤ k → k ≤ i → rb k = true := by
  intro creds
  induction creds with
  | nil => intro idx i h; simp [loopFrom] at h
  | cons c rest ih =>
    intro idx i h
    cases hrb : rb idx with
    | false => rw [loopFrom] at h; simp [hrb] at h
    | true =>
      rw [loopFrom] at h
      simp only [hrb, if_true] at h
      rcases List.mem_cons.mp h with heq | hmem
      · injection heq with hi
        rw [hi]
        exact ⟨Nat.le_refl idx, fun k hk1 hk2 => by
          have hk : k = idx := Nat.le_antisymm hk2 hk1
          rw [hk]; exact hrb⟩
      · rcases List.mem_append.mp hmem with hs | ht
        · split at hs <;> simp at hs
        · have hrec := ih (idx + 1) i ht
          refine ⟨Nat.le_trans (Nat.le_succ idx) hrec.1, fun k hk1 hk2 => ?_⟩
          rcases Nat.eq_or_lt_of_le hk1 with heq2 | hlt
          · rw [← heq2]; exact hrb
          · exact hrec.2 k hlt hk2

theorem loopFrom_head (att : Nat → Credential → LoginResult)
    (rb rd : Nat → Bool) (total : Nat) (creds : List Credential) (idx : Nat) :
    (loopFrom att rb rd total idx creds).2.head? ≠ some BEv.sleep := by
  cases creds with
  | nil => simp [loopFrom]
  | cons c rest =>
    cases hrb : rb idx with
    | false => simp [loopFrom, hrb]
    | true => simp [loopFrom, hrb]

theorem loopFrom_last (att : Nat → Credential → LoginResult)
    (rb rd : Nat → Bool) (total : Nat) (hrb : ∀ k, rb k = true) :
    ∀ (creds : List Credential) (idx : Nat),
      idx + creds.length = total + 1 →
      (loopFrom att rb rd total idx creds).2.getLast? ≠ some BEv.sleep := by
  intro creds
  induction creds with
  | nil => intro idx _; simp [loopFrom]
  | cons c rest ih =>
    intro idx hb
    cases rest with
    | nil =>
      have hlt : ¬ idx < total := by simp at hb; omega
      simp [loopFrom, hrb idx, hlt]
    | cons c2 rest2 =>
      have hb2 : (idx + 1) + (c2 :: rest2).length = total + 1 := by
        simp at hb ⊢; omega
      have htne : (loopFrom att rb rd total (idx + 1) (c2 :: rest2)).2 ≠ [] := by
        simp [loopFrom, hrb (idx + 1)]
      have hrec := ih (idx + 1) hb2
      rw [loopFrom]
      simp only [hrb idx, if_true]
      rw [← List.cons_append, getLast?_append_right _ _ htne]
      exact hrec

/-- C3 counterexample: two credentials; the running flag reads true at
attempt 1's boundary check and still true at its delay check, but false
at attempt 2's boundary check — the monotone read sequence
true, true, false of a stop() arriving during the inter-attempt sleep
(main.py lines 87 and 106). The worker loop then sleeps after what
turns out to be the last attempt: the trace is [attempt 1, sleep], so
the inter-attempt delay is not always between two consecutive attempts
and can follow the last one. -/
theorem C3_trailing_delay_counterexample :
    (workerRun attConst (fun i => decide (i ≤ 1)) (fun _ => true)
      [credA, credB]).1.length = 1 ∧
    (workerRun attConst (fun i => decide (i ≤ 1)) (fun _ => true)
      [credA, credB]).2 = [BEv.attempt 1, BEv.sleep] :=
  ⟨rfl, rfl⟩

/-- C3 (amended): the loop emits exactly one result per attempted
credential, in input order (the result list is the index-paired map of
`att` over a prefix of the credentials); at most one result per
credential, with equality when the flag never reads false; an attempt
starts only if every boundary read up to it was true (once cancellation
is observed at a boundary, no further attempts start); the delay never
occurs before the first attempt; and when the flag never reads false
(no cancellation), the delay also never occurs after the last attempt.
(If cancellation arrives during the delay itself, that one delay can
trail the final attempt — the counterexample — which is the only way
the original claim's "never after the last" fails.) -/
theorem C3_batch_sequencing (att : Nat → Credential → LoginResult)
    (rb rd : Nat → Bool) (creds : List Credential) :
    (∃ k, k ≤ creds.length ∧
      (workerRun att rb rd creds).1 =
        ((creds.take k).enumFrom 1).map (fun pr => att pr.1 pr.2)) ∧
    (workerRun att rb rd creds).1.length ≤ creds.length ∧
    ((∀ k, rb k = true) →
      (workerRun att rb rd creds).1.length = creds.length) ∧
    (∀ i, BEv.attempt i ∈ (workerRun att rb rd creds).2 →
      ∀ k, 1 ≤ k → k ≤ i → rb k = true) ∧
    (workerRun att rb rd creds).2.head? ≠ some BEv.sleep ∧
    ((∀ k, rb k = true) →
      (workerRun att rb rd creds).2.getLast? ≠ some BEv.sleep) :=
  ⟨loopFrom_initial att rb rd creds.length creds 1,
   loopFrom_length_le att rb rd creds.length creds 1,
   fun h => loopFrom_length_eq att rb rd creds.length h creds 1,
   fun i hi => (loopFrom_attempt_mem att rb rd creds.length creds 1 i hi).2,
   loopFrom_head att rb rd creds.length creds 1,
   fun h => loopFrom_last att rb rd creds.length h creds 1 (by omega)⟩

/-- C3 amended-claim witness: an uncancelled two-credential run emits
two results and does not end in a sleep. -/
theorem C3_batch_sequencing_witness :
    (workerRun attConst (fun _ => true) (fun _ => true)
      [credA, credB]).1.length = ([credA, credB] : List Credential).length ∧
    (workerRun attConst (fun _ => true) (fun _ => true)
      [credA, credB]).2.getLast? ≠ some BEv.sleep :=
  ⟨(C3_batch_sequencing attConst (fun _ => true) (fun _ => true)
      [credA, credB]).2.2.1 (fun _ => rfl),
   (C3_batch_sequencing attConst (fun _ => true) (fun _ => true)
      [credA, credB]).2.2.2.2.2 (fun _ => rfl)⟩

theorem summary_partition (total : Nat) (rs : List LoginResult) :
    (runSummary total rs).success + (runSummary total rs).failed +
      (runSummary total rs).errorLike =
    (rs.filter fun r => r.status != LoginStatus.CAPTCHA_REQUIRED).length := by
  induction rs with
  | nil => rfl
  | cons r t ih =>
    simp only [runSummary, List.filter_cons] at ih ⊢
    cases h : r.status <;> simp +decide [h] <;> omega

theorem filter_lt_of_mem_captcha (rs : List LoginResult) (r : LoginResult)
    (hm : r ∈ rs) (hr : r.status = LoginStatus.CAPTCHA_REQUIRED) :
    (rs.filter fun x => x.status != LoginStatus.CAPTCHA_REQUIRED).length <
      rs.length := by
  induction rs with
  | nil => cases hm
  | cons a t ih =>
    rcases List.mem_cons.mp hm with heq | hmt
    · subst heq
      have hle := List.length_filter_le
        (fun x => x.status != LoginStatus.CAPTCHA_REQUIRED) t
      simp +decide [List.filter_cons, hr]
      omega
    · have hrec := ih hmt
      cases hp : (a.status != LoginStatus.CAPTCHA_REQUIRED) <;>
        simp [List.filter_cons, hp] <;> omega

/-- C10: in the `batch_login` end-of-run summary, the error-like bucket
counts exactly the ERROR, TIMEOUT and ELEMENT_NOT_FOUND results; the
three buckets together count exactly the results whose status is not
CAPTCHA_REQUIRED — a CAPTCHA_REQUIRED result is in the total but in no
bucket — so any result list containing one has
success + failed + errorLike < total. -/
theorem C10_summary_buckets (rs : List LoginResult) :
    (runSummary rs.length rs).errorLike =
      (rs.filter fun r => r.status == LoginStatus.ERROR ||
        r.status == LoginStatus.TIMEOUT ||
        r.status == LoginStatus.ELEMENT_NOT_FOUND).length ∧
    (runSummary rs.length rs).success + (runSummary rs.length rs).failed +
        (runSummary rs.length rs).errorLike =
      (rs.filter fun r => r.status != LoginStatus.CAPTCHA_REQUIRED).length ∧
    ((∃ r ∈ rs, r.status = LoginStatus.CAPTCHA_REQUIRED) →
      (runSummary rs.length rs).success + (runSummary rs.length rs).failed +
        (runSummary rs.length rs).errorLike <
        (runSummary rs.length rs).total) := by
  refine ⟨?_, summary_partition rs.length rs, ?_⟩
  · have hpt : ∀ r ∈ rs, (errorLikeStatuses.contains r.status) =
        (r.status == LoginStatus.ERROR || r.status == LoginStatus.TIMEOUT ||
          r.status == LoginStatus.ELEMENT_NOT_FOUND) := by
      intro r _
      cases r.status <;> rfl
    show (rs.filter fun r => errorLikeStatuses.contains r.status).length = _
    rw [List.filter_congr hpt]
  · rintro ⟨r, hm, hr⟩
    have htot : (runSummary rs.length rs).total = rs.length := rfl
    rw [htot, summary_partition rs.length rs]
    exact filter_lt_of_mem_captcha rs r hm hr

/-- C10 witness: a one-element CAPTCHA_REQUIRED result list has bucket
sum strictly below the total. -/
theorem C10_summary_buckets_witness :
    (runSummary rsCaptcha.length rsCaptcha).success +
      (runSummary rsCaptcha.length rsCaptcha).failed +
      (runSummary rsCaptcha.length rsCaptcha).errorLike <
      (runSummary rsCaptcha.length rsCaptcha).total :=
  (C10_summary_buckets rsCaptcha).2.2 ⟨resCaptcha, by decide, rfl⟩

end LoginEveryForm
